import Mathlib

/-!
Verification of the ebpf_fuzzer repository: a shallow embedding of
`src/runner_windows/runner.py` (the Flask execution service and its
process invoker `run_ebpf_conformance`) and `src/manager/manager.py`
(the uploader client `send_file`), together with theorems settling the
spec's claims about them.

Python values carried in requests and responses are modelled by `JVal`;
Python exceptions relevant to these two files are modelled by `PyExc`,
including the class-hierarchy facts the code depends on
(`subprocess.TimeoutExpired` is a subclass of `subprocess.SubprocessError`,
while `OSError` — e.g. `FileNotFoundError` when an executable cannot be
started — is not). The subprocess itself is opaque to the service, so it
is modelled by a behavior oracle `ProcBehavior` saying whether the
`subprocess.run` call returns a completed process, raises
`TimeoutExpired`, or raises some other exception.
-/

set_option linter.unusedVariables false

namespace Runner

/-- JSON-ish Python values: what `request.get_json()` can return and what
`jsonify` serialises. Objects are association lists in insertion order,
matching Python dict ordering. -/
inductive JVal where
  | jnull
  | jbool (b : Bool)
  | jnum (n : Int)
  | jstr (s : String)
  | jarr (xs : List JVal)
  | jobj (kvs : List (String × JVal))
deriving Repr

/-- Python exceptions that can arise in `runner.py`. Each carries the text
`str(e)` would produce. -/
inductive PyExc where
  | timeoutExpired
  | subprocessError (msg : String)
  | osError (msg : String)
  | typeError (msg : String)
  | keyError (msg : String)
  | attributeError (msg : String)
  | badRequest (msg : String)
deriving Repr, DecidableEq

/-- Model of Python `isinstance(e, subprocess.TimeoutExpired)`. -/
def PyExc.isTimeoutExpired : PyExc → Bool
  | .timeoutExpired => true
  | _ => false

/-- Model of Python `isinstance(e, subprocess.SubprocessError)`:
`TimeoutExpired` is a subclass of `SubprocessError`; `OSError` (hence
`FileNotFoundError`), `TypeError`, `KeyError`, `AttributeError` and
werkzeug's `BadRequest` are not. -/
def PyExc.isSubprocessError : PyExc → Bool
  | .timeoutExpired => true
  | .subprocessError _ => true
  | _ => false

/-- The text `str(e)` yields for each modelled exception. For
`TimeoutExpired` the concrete text is irrelevant to the code paths (it is
always caught), so a fixed placeholder is used. -/
def PyExc.str : PyExc → String
  | .timeoutExpired => "Command timed out"
  | .subprocessError m => m
  | .osError m => m
  | .typeError m => m
  | .keyError m => m
  | .attributeError m => m
  | .badRequest m => m

mutual

/-- Python `repr` of a `JVal`, used by `str` on containers. Strings are
rendered with quote characters as CPython does in the common case. -/
def pyRepr : JVal → String
  | .jnull => "None"
  | .jbool true => "True"
  | .jbool false => "False"
  | .jnum n => toString n
  | .jstr s => "\x27" ++ s ++ "\x27"
  | .jarr xs => "[" ++ pyReprSeq xs ++ "]"
  | .jobj kvs => "\x7b" ++ pyReprPairs kvs ++ "\x7d"

/-- Comma-separated `repr`s of list elements. -/
def pyReprSeq : List JVal → String
  | [] => ""
  | [x] => pyRepr x
  | x :: y :: xs => pyRepr x ++ ", " ++ pyReprSeq (y :: xs)

/-- Comma-separated `repr`s of dict entries. -/
def pyReprPairs : List (String × JVal) → String
  | [] => ""
  | [(k, v)] => "\x27" ++ k ++ "\x27: " ++ pyRepr v
  | (k, v) :: q :: kvs =>
      "\x27" ++ k ++ "\x27: " ++ pyRepr v ++ ", " ++ pyReprPairs (q :: kvs)

end

/-- Python `str()` of a value, as used by an f-string such as
`f"Process timed out after {timeout_seconds} seconds"`: strings are taken
verbatim, everything else falls back to `repr`. -/
def pyStr : JVal → String
  | .jstr s => s
  | v => pyRepr v

/-- Python truthiness (`bool(v)`) of a JSON value, as tested by
`if not data`. -/
def pyTruthy : JVal → Bool
  | .jnull => false
  | .jbool b => b
  | .jnum n => n != 0
  | .jstr s => s != ""
  | .jarr xs => !xs.isEmpty
  | .jobj kvs => !kvs.isEmpty

/-- First-match lookup in an association list, the semantics of Python
dict indexing and `dict.get` (a Python dict has no duplicate keys, so
first-match agrees with it). -/
def jLookup : List (String × JVal) → String → Option JVal
  | [], _ => none
  | (k, v) :: rest, key => if k == key then some v else jLookup rest key

/-- Whether "program".isSubstring of s, via splitting: `s.splitOn pat` has
more than one part exactly when the (non-empty) pattern occurs in `s`. -/
def strContains (s pat : String) : Bool :=
  (s.splitOn pat).length != 1

/-- Python `key in data`: key membership for dicts, element equality for
lists, substring test for strings; raises `TypeError` on non-iterables
(`None`, booleans, numbers). -/
def pyContains (v : JVal) (key : String) : Except PyExc Bool :=
  match v with
  | .jobj kvs => .ok (kvs.any fun kv => kv.1 == key)
  | .jarr xs =>
      .ok (xs.any fun x =>
        match x with
        | .jstr s => s == key
        | _ => false)
  | .jstr s => .ok (strContains s key)
  | _ => .error (.typeError "argument of type is not iterable")

/-- Python `data[key]` with a string key: dict lookup (raising `KeyError`
when absent), `TypeError` on strings, lists and other values. -/
def pyIndex (v : JVal) (key : String) : Except PyExc JVal :=
  match v with
  | .jobj kvs =>
      match jLookup kvs key with
      | some x => .ok x
      | none => .error (.keyError key)
  | .jstr _ => .error (.typeError "string indices must be integers")
  | .jarr _ => .error (.typeError "list indices must be integers or slices, not str")
  | _ => .error (.typeError "object is not subscriptable")

/-- Python `data.get(key, default)`: only dicts have `.get`; any other
receiver raises `AttributeError` (unreachable in the handler, which has
already indexed `data` successfully). -/
def pyGetD (v : JVal) (key : String) (dflt : JVal) : Except PyExc JVal :=
  match v with
  | .jobj kvs => .ok ((jLookup kvs key).getD dflt)
  | _ => .error (.attributeError "object has no attribute get")

/-- Python name of a value's type, as it appears in `TypeError` messages. -/
def pyTypeName : JVal → String
  | .jnull => "NoneType"
  | .jbool _ => "bool"
  | .jnum _ => "int"
  | .jstr _ => "str"
  | .jarr _ => "list"
  | .jobj _ => "dict"

/-- `f.write(v)` on a file opened in text mode: succeeds on strings,
raises `TypeError` for every other value (in particular `None`). -/
def fileWrite (v : JVal) : Except PyExc Unit :=
  match v with
  | .jstr _ => .ok ()
  | v => .error (.typeError ("write() argument must be str, not " ++ pyTypeName v))

/-- `RUNNER` constant of runner.py. -/
def RUNNER : String := "C:\\ebpf\\ebpf-for-windows\\x64\\Debug\\ebpf_conformance_runner.exe"

/-- `PLUGIN_PATH` constant of runner.py. -/
def PLUGIN_PATH : String := "C:\\ebpf\\ebpf-for-windows\\x64\\Debug\\bpf2c_plugin.exe"

/-- The argument vector passed to `subprocess.run` in
`run_ebpf_conformance`: every element except the test-file path is a
literal constant of runner.py. -/
def conformanceArgs (prog_path : String) : List String :=
  [RUNNER,
   "--test_file_path", prog_path,
   "--cpu_version", "v4",
   "--exclude_regex", "local",
   "--plugin_path", PLUGIN_PATH,
   "--debug", "true",
   "--plugin_options", "\"--include C:/ebpf/ebpf-for-windows/include\""]

/-- What the opaque external subprocess does on one invocation: exits
within the deadline with a code and captured output, exceeds the deadline
(so `subprocess.run` raises `TimeoutExpired`), or makes `subprocess.run`
raise some other exception (e.g. `OSError` when the executable cannot be
started, which on Windows surfaces as `FileNotFoundError`). -/
inductive ProcBehavior where
  | completes (returncode : Int) (stdout stderr : String)
  | timesOut
  | raises (e : PyExc)
deriving Repr

/-- The value `subprocess.run` returns when the process completes. -/
structure CompletedProcess where
  returncode : Int
  stdout : String
  stderr : String
deriving Repr

/-- `subprocess.run(args, capture_output=True, text=True, timeout=...)`
under the behavior oracle: returns the completed process or raises. The
argument vector and timeout are passed but the external tool is opaque,
so the outcome is the oracle's. -/
def subprocess_run (args : List String) (timeout : JVal) (b : ProcBehavior) :
    Except PyExc CompletedProcess :=
  match b with
  | .completes rc out err => .ok ⟨rc, out, err⟩
  | .timesOut => .error .timeoutExpired
  | .raises e => .error e

/-- The three result-dict shapes `run_ebpf_conformance` can build. The
`success` field is stored explicitly because the code writes it
explicitly (`result.returncode == 0`, `False`, `False`). -/
inductive RunResult where
  | completed (success : Bool) (stdout stderr : String) (return_code : Int)
  | timedOut (success : Bool) (error : String)
  | launchFailure (success : Bool) (error : String)
deriving Repr, DecidableEq

/-- The `success` field of a result dict (read by the handler as
`result["success"]`). -/
def RunResult.success : RunResult → Bool
  | .completed s _ _ _ => s
  | .timedOut s _ => s
  | .launchFailure s _ => s

/-- JSON serialisation of a result dict, in the key order the code
writes. -/
def RunResult.toJVal : RunResult → JVal
  | .completed s out err rc =>
      .jobj [("success", .jbool s), ("stdout", .jstr out),
             ("stderr", .jstr err), ("return_code", .jnum rc)]
  | .timedOut s e => .jobj [("success", .jbool s), ("error", .jstr e)]
  | .launchFailure s e => .jobj [("success", .jbool s), ("error", .jstr e)]

/-- `run_ebpf_conformance(prog_path, timeout_seconds)` of runner.py under
a subprocess behavior oracle: runs `subprocess.run` on the fixed argument
vector, converts a completed process into the Completed dict, catches
`subprocess.TimeoutExpired` into the TimedOut dict and
`subprocess.SubprocessError` into the LaunchFailure dict; any other
exception (e.g. `OSError`) propagates to the caller. -/
def run_ebpf_conformance (b : ProcBehavior) (prog_path : String)
    (timeout_seconds : JVal) : Except PyExc RunResult :=
  match subprocess_run (conformanceArgs prog_path) timeout_seconds b with
  | .ok result =>
      .ok (.completed (result.returncode == 0) result.stdout result.stderr
            result.returncode)
  | .error e =>
      if e.isTimeoutExpired then
        .ok (.timedOut false
          ("Process timed out after " ++ pyStr timeout_seconds ++ " seconds"))
      else if e.isSubprocessError then
        .ok (.launchFailure false ("Failed to run conformance test: " ++ PyExc.str e))
      else
        .error e

/-- An HTTP response: status code and JSON body. -/
structure HttpResponse where
  status : Nat
  body : JVal
deriving Repr

/-- Request-scoped side effects of one handler invocation: temporary
directories created and removed, files written (paths), and subprocess
invocations (argument vector and the timeout value passed). -/
structure Effects where
  dirsCreated : List String
  dirsRemoved : List String
  filesWritten : List String
  procCalls : List (List String × JVal)
deriving Repr

/-- The body `request.get_json()` yields: either it parses to a JSON
value, or parsing fails and `get_json` raises werkzeug's `BadRequest`
(Flask's default `on_json_loading_failed`). -/
inductive ReqBody where
  | invalidJson
  | json (v : JVal)
deriving Repr

/-- The text of `str(e)` for the `BadRequest` flask raises on an
unparseable JSON body. -/
def BAD_REQUEST_STR : String :=
  "400 Bad Request: The browser (or proxy) sent a request that this server could not understand."

/-- `request.get_json()` under the request-body model. -/
def get_json : ReqBody → Except PyExc JVal
  | .invalidJson => .error (.badRequest BAD_REQUEST_STR)
  | .json v => .ok v

/-- The handler's 400 response for a missing `program` field. -/
def missingProgramResponse : HttpResponse :=
  ⟨400, .jobj [("status", .jstr "error"),
               ("message", .jstr "Request must include \x27program\x27 field")]⟩

/-- The handler's outer `except Exception` response: HTTP 500 with
`Server error: {str(e)}`. -/
def serverError (e : PyExc) : HttpResponse :=
  ⟨500, .jobj [("status", .jstr "error"),
               ("message", .jstr ("Server error: " ++ PyExc.str e))]⟩

/-- `Path(temp_dir) / "test.prog"` (Windows separator). -/
def stagedFilePath (temp_dir : String) : String := temp_dir ++ "\\test.prog"

/-- Per-request environment: the unique directory name
`tempfile.TemporaryDirectory()` allocates for this request, and the
behavior of the external subprocess if invoked. -/
structure Env where
  tempDir : String
  proc : ProcBehavior

/-- The `/run` route handler of runner.py, returning its HTTP response
together with the request-scoped side effects. Mirrors the source
line by line: `get_json`, the `not data or "program" not in data` check
(returning 400 with nothing staged), then `with TemporaryDirectory()` —
whose body opens and writes the staged file (`open` creates the file
before `data["program"]` is evaluated), reads `data.get("timeout", 30)`,
and calls `run_ebpf_conformance` — with the directory removed on every
exit from the `with` block; exceptions reach the outer `except Exception`
which answers 500, and a result dict is wrapped as
`status = "success" if result["success"] else "error"` in a 200 reply. -/
def run (env : Env) (req : ReqBody) : HttpResponse × Effects :=
  match get_json req with
  | .error e => (serverError e, ⟨[], [], [], []⟩)
  | .ok data =>
    if !pyTruthy data then
      (missingProgramResponse, ⟨[], [], [], []⟩)
    else
      match pyContains data "program" with
      | .error e => (serverError e, ⟨[], [], [], []⟩)
      | .ok false => (missingProgramResponse, ⟨[], [], [], []⟩)
      | .ok true =>
        let d := env.tempDir
        let prog_path := stagedFilePath d
        match pyIndex data "program" with
        | .error e => (serverError e, ⟨[d], [d], [prog_path], []⟩)
        | .ok progVal =>
          match fileWrite progVal with
          | .error e => (serverError e, ⟨[d], [d], [prog_path], []⟩)
          | .ok _ =>
            match pyGetD data "timeout" (.jnum 30) with
            | .error e => (serverError e, ⟨[d], [d], [prog_path], []⟩)
            | .ok timeout =>
              match run_ebpf_conformance env.proc prog_path timeout with
              | .error e =>
                  (serverError e,
                   ⟨[d], [d], [prog_path], [(conformanceArgs prog_path, timeout)]⟩)
              | .ok result =>
                  (⟨200, .jobj [("status",
                                 .jstr (if result.success then "success" else "error")),
                                ("result", result.toJVal)]⟩,
                   ⟨[d], [d], [prog_path], [(conformanceArgs prog_path, timeout)]⟩)

end Runner

namespace Manager

/-- What `requests.post(http_path, headers=..., json=data)` does on this
invocation: either an HTTP response is received (any status code), or a
`requests.exceptions.RequestException` is raised (connection refused,
DNS failure, transport timeout, ...). -/
inductive PostOutcome where
  | response (status_code : Int) (text : String)
  | requestException (msg : String)
deriving Repr

/-- Environment of one `send_file(http_path, filepath)` call: whether
`os.path.exists(filepath)` holds, what reading the file yields (content,
or the message of an exception raised while opening/reading), and the
transport outcome of the POST if one is issued. -/
structure SendEnv where
  http_path : String
  filepath : String
  fileExists : Bool
  readError : Option String
  content : String
  post : PostOutcome

/-- Observable outcome of one `send_file` call: the lines printed to
standard output in order, the JSON body POSTed (none when no HTTP request
was issued), and the process exit status (`sys.exit(1)` on the error
paths; falling off the end of `main` exits 0). -/
structure SendOutcome where
  printed : List String
  sentBody : Option Runner.JVal
  exit_status : Int
deriving Repr

/-- `send_file(http_path, filepath)` of manager.py: missing file prints a
diagnostic and exits 1 before any request; a read failure is caught by
the generic `except Exception` (exit 1, no request); a transport-level
`RequestException` prints the error and exits 1; a received response has
its status code and raw body printed, and the process ends with status
0. -/
def send_file (env : SendEnv) : SendOutcome :=
  if !env.fileExists then
    ⟨["Error: File \x27" ++ env.filepath ++ "\x27 does not exist"], none, 1⟩
  else
    match env.readError with
    | some msg => ⟨["Unexpected error: " ++ msg], none, 1⟩
    | none =>
      let data := Runner.JVal.jobj [("program", Runner.JVal.jstr env.content)]
      match env.post with
      | .requestException msg =>
          ⟨["Error sending request: " ++ msg], some data, 1⟩
      | .response code text =>
          ⟨["Response status code: " ++ toString code, "Response content:", text],
           some data, 0⟩

end Manager

namespace Runner

/-- A successful first-match lookup implies the `any`-based key-membership
test the handler's validation performs. -/
theorem any_key_of_jLookup (kvs : List (String × JVal)) (key : String) (v : JVal)
    (h : jLookup kvs key = some v) : (kvs.any fun kv => kv.1 == key) = true := by
  induction kvs with
  | nil => simp [jLookup] at h
  | cons hd tl ih =>
    obtain ⟨k, w⟩ := hd
    simp only [jLookup] at h
    by_cases hk : (k == key) = true
    · simp [hk]
    · rw [if_neg hk] at h
      simp only [List.any_cons, hk, Bool.false_or]
      exact ih h

/-- A dict with a successful lookup is truthy (non-empty). -/
theorem pyTruthy_jobj_of_jLookup (kvs : List (String × JVal)) (key : String)
    (v : JVal) (h : jLookup kvs key = some v) : pyTruthy (.jobj kvs) = true := by
  cases kvs with
  | nil => simp [jLookup] at h
  | cons hd tl => simp [pyTruthy]

/-- A dict with a successful lookup passes the membership test. -/
theorem pyContains_jobj_of_jLookup (kvs : List (String × JVal)) (key : String)
    (v : JVal) (h : jLookup kvs key = some v) :
    pyContains (.jobj kvs) key = .ok true := by
  simp [pyContains, any_key_of_jLookup kvs key v h]

/-- Dict indexing returns the looked-up value. -/
theorem pyIndex_jobj_of_jLookup (kvs : List (String × JVal)) (key : String)
    (v : JVal) (h : jLookup kvs key = some v) :
    pyIndex (.jobj kvs) key = .ok v := by
  simp [pyIndex, h]

/-- Evaluation of the handler on a well-formed request (a JSON object
whose `program` entry is a string): the program is staged, the timeout is
`data.get("timeout", 30)`, the invoker runs once on the staged path, and
the response is 200 wrapping the result dict — or 500 if the invoker lets
an exception escape. The temp directory is created and removed either
way. -/
theorem run_valid_eq (env : Env) (kvs : List (String × JVal)) (prog : String)
    (h : jLookup kvs "program" = some (.jstr prog)) :
    run env (.json (.jobj kvs)) =
      ((match run_ebpf_conformance env.proc (stagedFilePath env.tempDir)
            ((jLookup kvs "timeout").getD (.jnum 30)) with
        | .error e => serverError e
        | .ok result =>
            ⟨200, .jobj [("status",
                          .jstr (if result.success then "success" else "error")),
                         ("result", result.toJVal)]⟩),
       ⟨[env.tempDir], [env.tempDir], [stagedFilePath env.tempDir],
        [(conformanceArgs (stagedFilePath env.tempDir),
          (jLookup kvs "timeout").getD (.jnum 30))]⟩) := by
  have h1 := pyTruthy_jobj_of_jLookup kvs "program" _ h
  have h2 := pyContains_jobj_of_jLookup kvs "program" _ h
  have h3 := pyIndex_jobj_of_jLookup kvs "program" _ h
  simp only [run, get_json, h1, h2, h3, Bool.not_true, Bool.false_eq_true,
    if_false, fileWrite, pyGetD]
  cases hrun : run_ebpf_conformance env.proc (stagedFilePath env.tempDir)
      ((jLookup kvs "timeout").getD (.jnum 30)) with
  | error e => simp [hrun]
  | ok result => simp [hrun]

/-- C1: when the subprocess exits within the deadline,
`run_ebpf_conformance` returns the Completed-shaped result carrying the
captured stdout, stderr and the exit code, with `success` true if and
only if the exit code is zero — never an error-shaped result. -/
theorem completed_result_success_iff_exit_zero (rc : Int)
    (out err prog_path : String) (t : JVal) :
    ∃ s : Bool,
      run_ebpf_conformance (.completes rc out err) prog_path t =
        .ok (.completed s out err rc) ∧ (s = true ↔ rc = 0) := by
  refine ⟨rc == 0, rfl, ?_⟩
  simp

/-- C3: when the subprocess does not exit within the deadline, the
invoker returns the TimedOut outcome — `success = false` and
`error = "Process timed out after <N> seconds"` with `<N>` exactly the
timeout value that was used — and the handler delivers it inside an HTTP
200 response. -/
theorem timeout_outcome_message_and_http200 (env : Env)
    (kvs : List (String × JVal)) (prog : String)
    (h : jLookup kvs "program" = some (.jstr prog))
    (hp : env.proc = .timesOut) :
    (∀ (p : String) (t : JVal),
      run_ebpf_conformance .timesOut p t =
        .ok (.timedOut false
          ("Process timed out after " ++ pyStr t ++ " seconds"))) ∧
    (run env (.json (.jobj kvs))).1 =
      ⟨200, .jobj [("status", .jstr "error"),
        ("result", .jobj [("success", .jbool false),
          ("error", .jstr ("Process timed out after " ++
            pyStr ((jLookup kvs "timeout").getD (.jnum 30)) ++ " seconds"))])]⟩ := by
  constructor
  · intro p t
    rfl
  · rw [run_valid_eq env kvs prog h, hp]
    rfl

/-- Witness for C3 at a concrete request with `timeout = 1` against a
subprocess that exceeds the deadline. -/
theorem timeout_outcome_message_and_http200_witness :
    (run ⟨"C:\\tmp\\t", .timesOut⟩
        (.json (.jobj [("program", .jstr "p"), ("timeout", .jnum 1)]))).1 =
      ⟨200, .jobj [("status", .jstr "error"),
        ("result", .jobj [("success", .jbool false),
          ("error", .jstr "Process timed out after 1 seconds")])]⟩ := by
  have hw := timeout_outcome_message_and_http200 ⟨"C:\\tmp\\t", .timesOut⟩
      [("program", .jstr "p"), ("timeout", .jnum 1)] "p" rfl rfl
  exact hw.2

/-- C6: every RunResult the invoker returns is wrapped by the handler as
`status = "success"`/`"error"` according to the result's `success` flag,
with the result dict attached, in an HTTP 200 response. -/
theorem response_wraps_result_status200 (env : Env)
    (kvs : List (String × JVal)) (prog : String) (result : RunResult)
    (h : jLookup kvs "program" = some (.jstr prog))
    (hres : run_ebpf_conformance env.proc (stagedFilePath env.tempDir)
        ((jLookup kvs "timeout").getD (.jnum 30)) = .ok result) :
    (run env (.json (.jobj kvs))).1 =
      ⟨200, .jobj [("status",
                    .jstr (if result.success then "success" else "error")),
                   ("result", result.toJVal)]⟩ ∧
    ((if result.success then "success" else "error") = "success" ↔
      result.success = true) := by
  constructor
  · rw [run_valid_eq env kvs prog h, hres]
  · cases hs : result.success <;> simp

/-- Witness for C6 at a concrete request whose subprocess exits 0. -/
theorem response_wraps_result_status200_witness :
    (run ⟨"C:\\tmp\\t", .completes 0 "out" "err"⟩
        (.json (.jobj [("program", .jstr "p")]))).1 =
      ⟨200, .jobj [("status", .jstr "success"),
        ("result", .jobj [("success", .jbool true), ("stdout", .jstr "out"),
          ("stderr", .jstr "err"), ("return_code", .jnum 0)])]⟩ := by
  have hw := response_wraps_result_status200 ⟨"C:\\tmp\\t", .completes 0 "out" "err"⟩
      [("program", .jstr "p")] "p" (.completed true "out" "err" 0) rfl rfl
  exact hw.1

/-- C5: on every exit path of the handler — 400 rejection, normal
completion, non-zero exit, timeout, launch failure, or any modelled
exception — every temporary directory created for the request has been
removed when the handler returns, and every staged file lies inside a
removed directory. -/
theorem temp_resources_removed_on_every_path (env : Env) (req : ReqBody) :
    (run env req).2.dirsRemoved = (run env req).2.dirsCreated ∧
    ((run env req).2.filesWritten.all
      (fun f => ((run env req).2.dirsRemoved.map stagedFilePath).contains f)) =
      true := by
  cases req with
  | invalidJson => exact ⟨rfl, rfl⟩
  | json v =>
    simp only [run, get_json]
    repeat' split
    all_goals simp [stagedFilePath]

/-- C2 counterexample: a POST whose body is not valid JSON makes
`request.get_json()` raise, which the handler's outer `except Exception`
turns into an HTTP 500 "Server error: ..." response — not the claimed
HTTP 400 response with the missing-`program` message. -/
theorem invalid_json_answered_500_not_400 :
    (run ⟨"C:\\tmp\\t", .completes 0 "" ""⟩ ReqBody.invalidJson).1.status = 500 ∧
    (run ⟨"C:\\tmp\\t", .completes 0 "" ""⟩ ReqBody.invalidJson).1.status ≠ 400 := by
  exact ⟨rfl, by decide⟩

/-- C2 amended: a body that decodes to a falsy JSON value, or to a value
for which Python's `"program" in data` test returns false, is answered
with HTTP 400 and the exact missing-`program` body, with no subprocess
invoked and nothing staged; a body for which the membership test itself
raises (non-iterable values such as numbers or `true`) is answered 500,
and a body that is not valid JSON is answered 500 `Server error: ...` —
in all these cases with no subprocess and no temporary files. -/
theorem missing_program_field_amended (env : Env) (data : JVal) :
    ((pyTruthy data = false ∨ pyContains data "program" = .ok false) →
      run env (.json data) = (missingProgramResponse, ⟨[], [], [], []⟩)) ∧
    (∀ e : PyExc, pyTruthy data = true → pyContains data "program" = .error e →
      run env (.json data) = (serverError e, ⟨[], [], [], []⟩)) ∧
    run env ReqBody.invalidJson =
      (serverError (.badRequest BAD_REQUEST_STR), ⟨[], [], [], []⟩) := by
  refine ⟨?_, ?_, rfl⟩
  · rintro (hF | hC)
    · simp [run, get_json, hF]
    · cases hT : pyTruthy data
      · simp [run, get_json, hT]
      · simp [run, get_json, hT, hC]
  · intro e hT hC
    simp [run, get_json, hT, hC]

/-- Witness for the amended C2: the empty JSON object is answered 400
with the exact body and nothing staged, and a truthy non-iterable body is
answered 500. -/
theorem missing_program_field_amended_witness :
    run ⟨"C:\\tmp\\t", .completes 0 "" ""⟩ (.json (.jobj [])) =
      (missingProgramResponse, ⟨[], [], [], []⟩) ∧
    run ⟨"C:\\tmp\\t", .completes 0 "" ""⟩ (.json (.jnum 5)) =
      (serverError (.typeError "argument of type is not iterable"),
       ⟨[], [], [], []⟩) := by
  have h1 := missing_program_field_amended ⟨"C:\\tmp\\t", .completes 0 "" ""⟩ (.jobj [])
  have h2 := missing_program_field_amended ⟨"C:\\tmp\\t", .completes 0 "" ""⟩ (.jnum 5)
  exact ⟨h1.1 (Or.inl rfl), h2.2.1 _ rfl rfl⟩

/-- C7 counterexample: a request carrying the non-numeric value `"x"` in
its `timeout` field has `"x"` passed through to the invoker unchanged —
it is not treated as absent and does not become the default 30. -/
theorem nonnumeric_timeout_passed_through :
    ((run ⟨"C:\\tmp\\t", .completes 0 "" ""⟩
        (.json (.jobj [("program", .jstr "p"),
                       ("timeout", .jstr "x")]))).2.procCalls.map Prod.snd) =
      [JVal.jstr "x"] ∧
    JVal.jstr "x" ≠ JVal.jnum 30 := by
  exact ⟨rfl, fun hc => JVal.noConfusion hc⟩

/-- C7 amended: the timeout passed to the invoker is 30 exactly when the
request has no `timeout` key; any present value — numeric or not — is
passed through unchanged (`data.get("timeout", 30)`). -/
theorem timeout_default_and_passthrough (env : Env)
    (kvs : List (String × JVal)) (prog : String)
    (h : jLookup kvs "program" = some (.jstr prog)) :
    (jLookup kvs "timeout" = none →
      ((run env (.json (.jobj kvs))).2.procCalls.map Prod.snd) =
        [JVal.jnum 30]) ∧
    (∀ v : JVal, jLookup kvs "timeout" = some v →
      ((run env (.json (.jobj kvs))).2.procCalls.map Prod.snd) = [v]) := by
  constructor
  · intro hn
    rw [run_valid_eq env kvs prog h]
    simp [hn]
  · intro v hv
    rw [run_valid_eq env kvs prog h]
    simp [hv]

/-- Witness for the amended C7: no `timeout` key gives 30; a present
numeric key is passed through. -/
theorem timeout_default_and_passthrough_witness :
    ((run ⟨"C:\\tmp\\t", .completes 0 "" ""⟩
        (.json (.jobj [("program", .jstr "p")]))).2.procCalls.map Prod.snd) =
      [JVal.jnum 30] ∧
    ((run ⟨"C:\\tmp\\t", .completes 0 "" ""⟩
        (.json (.jobj [("program", .jstr "p"),
                       ("timeout", .jnum 5)]))).2.procCalls.map Prod.snd) =
      [JVal.jnum 5] := by
  have h1 := timeout_default_and_passthrough ⟨"C:\\tmp\\t", .completes 0 "" ""⟩
      [("program", .jstr "p")] "p" rfl
  have h2 := timeout_default_and_passthrough ⟨"C:\\tmp\\t", .completes 0 "" ""⟩
      [("program", .jstr "p"), ("timeout", .jnum 5)] "p" rfl
  exact ⟨h1.1 rfl, h2.2 (.jnum 5) rfl⟩

/-- C8: the subprocess argument vector is a fixed constant template with
the staged file path as its only variable element, and for any two valid
requests handled with the same staging directory the recorded argument
vectors are identical — the path is `<tempDir>\test.prog`, generated by
the service independently of the request's `program` content, so no part
of the program text reaches the argument vector. -/
theorem argv_independent_of_program (env : Env)
    (kvs1 kvs2 : List (String × JVal)) (p1 p2 : String)
    (h1 : jLookup kvs1 "program" = some (.jstr p1))
    (h2 : jLookup kvs2 "program" = some (.jstr p2)) :
    (∃ front back : List String, ∀ path : String,
        conformanceArgs path = front ++ path :: back) ∧
    ((run env (.json (.jobj kvs1))).2.procCalls.map Prod.fst =
      [conformanceArgs (stagedFilePath env.tempDir)]) ∧
    ((run env (.json (.jobj kvs2))).2.procCalls.map Prod.fst =
      [conformanceArgs (stagedFilePath env.tempDir)]) := by
  refine ⟨⟨[RUNNER, "--test_file_path"],
           ["--cpu_version", "v4", "--exclude_regex", "local", "--plugin_path",
            PLUGIN_PATH, "--debug", "true", "--plugin_options",
            "\"--include C:/ebpf/ebpf-for-windows/include\""],
           fun path => rfl⟩, ?_, ?_⟩
  · rw [run_valid_eq env kvs1 p1 h1]
    rfl
  · rw [run_valid_eq env kvs2 p2 h2]
    rfl

/-- Witness for C8 at two requests with different program texts. -/
theorem argv_independent_of_program_witness :
    ((run ⟨"C:\\tmp\\t", .completes 0 "" ""⟩
        (.json (.jobj [("program", .jstr "prog one")]))).2.procCalls.map
          Prod.fst =
      [conformanceArgs (stagedFilePath "C:\\tmp\\t")]) ∧
    ((run ⟨"C:\\tmp\\t", .completes 1 "" ""⟩
        (.json (.jobj [("program", .jstr "another prog")]))).2.procCalls.map
          Prod.fst =
      [conformanceArgs (stagedFilePath "C:\\tmp\\t")]) := by
  have hw := argv_independent_of_program ⟨"C:\\tmp\\t", .completes 0 "" ""⟩
      [("program", .jstr "prog one")] [("program", .jstr "another prog")]
      "prog one" "another prog" rfl rfl
  have hw2 := argv_independent_of_program ⟨"C:\\tmp\\t", .completes 1 "" ""⟩
      [("program", .jstr "prog one")] [("program", .jstr "another prog")]
      "prog one" "another prog" rfl rfl
  exact ⟨hw.2.1, hw2.2.2⟩

/-- C10: a JSON object body whose `program` value is `null` passes the
key-membership validation, the write of `None` to the staged file raises
`TypeError`, and the response is HTTP 500 with a message beginning
"Server error:" — not the 400 malformed-request response. The staged
directory is still cleaned up and no subprocess runs. -/
theorem null_program_answered_500 (env : Env) (kvs : List (String × JVal))
    (h : jLookup kvs "program" = some .jnull) :
    run env (.json (.jobj kvs)) =
      (serverError (.typeError "write() argument must be str, not NoneType"),
       ⟨[env.tempDir], [env.tempDir], [stagedFilePath env.tempDir], []⟩) ∧
    (run env (.json (.jobj kvs))).1.status = 500 ∧
    (∃ rest : String,
      (run env (.json (.jobj kvs))).1.body =
        .jobj [("status", .jstr "error"),
               ("message", .jstr ("Server error: " ++ rest))]) ∧
    (run env (.json (.jobj kvs))).1.status ≠ 400 := by
  have hT := pyTruthy_jobj_of_jLookup kvs "program" _ h
  have hC := pyContains_jobj_of_jLookup kvs "program" _ h
  have hI := pyIndex_jobj_of_jLookup kvs "program" _ h
  have heq : run env (.json (.jobj kvs)) =
      (serverError (.typeError "write() argument must be str, not NoneType"),
       ⟨[env.tempDir], [env.tempDir], [stagedFilePath env.tempDir], []⟩) := by
    simp [run, get_json, hT, hC, hI, fileWrite, pyTypeName]
  refine ⟨heq, ?_, ⟨"write() argument must be str, not NoneType", ?_⟩, ?_⟩
  · rw [heq]
    rfl
  · rw [heq]
    simp [serverError, PyExc.str]
  · rw [heq]
    simp [serverError]

/-- Witness for C10 at the concrete body `{"program": null}`. -/
theorem null_program_answered_500_witness :
    (run ⟨"C:\\tmp\\t", .completes 0 "" ""⟩
        (.json (.jobj [("program", .jnull)]))).1.status = 500 := by
  have hw := null_program_answered_500 ⟨"C:\\tmp\\t", .completes 0 "" ""⟩
      [("program", .jnull)] rfl
  exact hw.2.1

/-- C4 (code bug): an OS-level launch fault — `subprocess.run` raising
`OSError`/`FileNotFoundError` because the executable cannot be started —
is NOT a `subprocess.SubprocessError`, so the invoker's `except` clauses
miss it: the exception propagates out of `run_ebpf_conformance` to the
handler, which answers HTTP 500 "Server error: ...", instead of the
LaunchFailure outcome in a 200 response that the spec requires. Faults
that are raised as `subprocess.SubprocessError` are converted to the
LaunchFailure outcome as specified. -/
theorem os_launch_fault_escapes_invoker :
    PyExc.isSubprocessError
      (.osError "[WinError 2] The system cannot find the file specified") =
      false ∧
    run_ebpf_conformance
        (.raises (.osError "[WinError 2] The system cannot find the file specified"))
        "C:\\tmp\\t\\test.prog" (.jnum 30) =
      .error (.osError "[WinError 2] The system cannot find the file specified") ∧
    (run ⟨"C:\\tmp\\t",
        .raises (.osError "[WinError 2] The system cannot find the file specified")⟩
      (.json (.jobj [("program", .jstr "p")]))).1.status = 500 ∧
    run_ebpf_conformance (.raises (.subprocessError "boom"))
        "C:\\tmp\\t\\test.prog" (.jnum 30) =
      .ok (.launchFailure false "Failed to run conformance test: boom") := by
  exact ⟨rfl, rfl, rfl, rfl⟩

end Runner

namespace Manager

/-- C9: `send_file` prints a diagnostic and exits 1 without issuing any
HTTP request when the file does not exist; prints the error and exits 1
when the POST raises a transport-level `RequestException`; and when any
HTTP response is received — regardless of its status code — prints the
status code and the full raw response body and the process ends with
status 0. -/
theorem send_file_exit_paths (env : SendEnv) :
    (env.fileExists = false →
      send_file env =
        ⟨["Error: File \x27" ++ env.filepath ++ "\x27 does not exist"],
         none, 1⟩) ∧
    (∀ msg : String, env.fileExists = true → env.readError = none →
      env.post = .requestException msg →
      send_file env =
        ⟨["Error sending request: " ++ msg],
         some (.jobj [("program", .jstr env.content)]), 1⟩) ∧
    (∀ (code : Int) (text : String), env.fileExists = true →
      env.readError = none → env.post = .response code text →
      send_file env =
        ⟨["Response status code: " ++ toString code, "Response content:", text],
         some (.jobj [("program", .jstr env.content)]), 0⟩) := by
  refine ⟨?_, ?_, ?_⟩ <;> intros <;> simp_all [send_file]

/-- Witness for C9 at three concrete environments: missing file,
transport failure, and a received non-2xx response. -/
theorem send_file_exit_paths_witness :
    send_file ⟨"http://h/run", "f", false, none, "", .response 200 "ok"⟩ =
      ⟨["Error: File \x27f\x27 does not exist"], none, 1⟩ ∧
    send_file ⟨"http://h/run", "f", true, none, "c", .requestException "refused"⟩ =
      ⟨["Error sending request: refused"],
       some (.jobj [("program", .jstr "c")]), 1⟩ ∧
    send_file ⟨"http://h/run", "f", true, none, "c", .response 404 "nf"⟩ =
      ⟨["Response status code: 404", "Response content:", "nf"],
       some (.jobj [("program", .jstr "c")]), 0⟩ := by
  have h1 := send_file_exit_paths
      ⟨"http://h/run", "f", false, none, "", .response 200 "ok"⟩
  have h2 := send_file_exit_paths
      ⟨"http://h/run", "f", true, none, "c", .requestException "refused"⟩
  have h3 := send_file_exit_paths
      ⟨"http://h/run", "f", true, none, "c", .response 404 "nf"⟩
  exact ⟨h1.1 rfl, h2.2.1 "refused" rfl rfl rfl, h3.2.2 404 "nf" rfl rfl rfl⟩

end Manager
